import Mathlib

/-!
Verification development for the smart-compose browser extension.

We shallowly embed the background service workers of the repository:

* the built-in-AI variant of `src/background.js` (globals `_lmSession`,
  `_lmType`, `_isInitializing`, the functions `ensureLanguageModelReady`,
  `waitForAvailabilityOriginTrial`, `detectBuiltInAPI`, and the
  `chrome.runtime.onMessage` listener handling `initBuiltinAI`,
  `getBuiltinStatus`, `analyze`, `generate`, `refine`);
* the remote (Gemini) variant of `src/background.js` (`incrementUsage`,
  `getApiConfig`, `callBackend`, and its `onMessage` listener handling
  `saveApiKey`, `setProxyUrl`, `getConfig`, `analyze`, `generate`, `refine`);
* the page-context bridge `ai-bridge.js` (`ensureSession`, `handleSummarize`).

External effects (the model backend, `JSON.parse`, `fetch`, timers) are
modelled as explicit environment records passed to the embedded functions;
`chrome.storage.local` is explicit state.  JavaScript `undefined`/missing
fields are modelled with `Option`.
-/

namespace SmartCompose

/-- The status strings written by `setBuiltinStatus` in the built-in variant
of `background.js`. -/
inductive BStatus where
  | not_initialized
  | initializing
  | downloading
  | ready
  | error
  | not_available
  deriving DecidableEq, Repr

/-- The three entrypoint kinds returned by `detectBuiltInAPI` in
`background.js`: `'originTrial' | 'chromeAI' | 'windowAI'`. -/
inductive APIKind where
  | originTrial
  | chromeAI
  | windowAI
  deriving DecidableEq, Repr

/-- A structured analysis object `{emotion, intent, suggestedAction}` as
produced by the `analyze` action. -/
structure Analysis where
  emotion : String
  intent : String
  suggestedAction : String
  deriving DecidableEq, Repr

/-- The neutral default analysis substituted by both background variants when
the model's `analyze` output cannot be parsed as JSON
(`{ emotion: 'Neutral', intent: 'Statement', suggestedAction: 'Generate Reply' }`). -/
def defaultAnalysis : Analysis :=
  { emotion := "Neutral", intent := "Statement", suggestedAction := "Generate Reply" }

/-- Embedding of the JavaScript regular-expression extraction
`raw.match(/\x7b[\s\S]*\x7d/)` used by both `analyze` branches: the match, when
it exists, runs from the first `{` of the string to the last `}` of the string
(the leftmost possible start, with a greedy body).  Returns `none` exactly when
the regex does not match. -/
def jsonMatch (s : String) : Option String :=
  let cs := s.toList
  match cs.findIdx? (fun c => c = '{'), cs.reverse.findIdx? (fun c => c = '}') with
  | some i, some jr =>
      let j := cs.length - 1 - jr
      if i < j then some (String.mk ((cs.drop i).take (j - i + 1))) else none
  | _, _ => none

/-- JavaScript truthiness for an optional string field: `undefined` and the
empty string are falsy. -/
def jsTruthy (o : Option String) : Option String :=
  match o with
  | none => none
  | some s => if s = "" then none else some s

/-- Interpolation `${x}` of a possibly-undefined string into a template
literal: JavaScript renders `undefined` as the text `"undefined"`. -/
def jsInterp (o : Option String) : String := o.getD "undefined"

/-- `x || ''` on a possibly-undefined string. -/
def jsOrEmpty (o : Option String) : String := (jsTruthy o).getD ""

/-- Whitespace test used by `jsTrim`. -/
def isWsChar (c : Char) : Bool :=
  c = ' ' ∨ c = '\t' ∨ c = '\n' ∨ c = '\r'

/-- Executable model of JavaScript `String.prototype.trim()`: strips leading
and trailing whitespace (modelled for space/tab/newline/CR; JavaScript trims
a larger Unicode class, which no string in this development uses). -/
def jsTrim (s : String) : String :=
  String.mk (((s.toList.dropWhile isWsChar).reverse.dropWhile isWsChar).reverse)

/- ------------------------------------------------------------------
   Usage counter (remote variant)
   ------------------------------------------------------------------ -/

/-- The persisted `dailyUsage` object `{date, count}` of the remote variant;
either field may be absent on a freshly-created object. -/
structure Usage where
  date : Option String
  count : Option Nat
  deriving DecidableEq, Repr

/-- Embedding of `incrementUsage` from the remote `background.js`:

```js
const stored = (await storageGet([USAGE_KEY]))[USAGE_KEY] || {};
if (stored.date !== today) { stored.date = today; stored.count = 0; }
stored.count = (stored.count || 0) + 1;
```

`today` is the `YYYY-MM-DD` slice of the current date. -/
def incrementUsage (today : String) (stored : Option Usage) : Usage :=
  let u := stored.getD { date := none, count := none }
  let u := if u.date ≠ some today then { date := some today, count := some 0 } else u
  { u with count := some (u.count.getD 0 + 1) }

/- ------------------------------------------------------------------
   Refine tone templates
   ------------------------------------------------------------------ -/

/-- The `toneMap` object literal of the built-in variant's `refine` branch. -/
def toneMapBuiltin (tone : String) : Option String :=
  if tone = "formal" then some "Rewrite to be formal and professional."
  else if tone = "friendly" then some "Rewrite to be more friendly and casual."
  else if tone = "concise" then some "Rewrite to be concise and to the point."
  else if tone = "sarcastic" then some "Rewrite to be slightly sarcastic while staying appropriate."
  else none

/-- The instruction string built by the built-in variant's `refine` branch:
`` `${toneMap[tone] || `Rewrite to match tone: ${tone}.`}\n\nOriginal: ${request.text}\n\nRewritten:` ``. -/
def refineInstructionBuiltin (tone : String) (text : Option String) : String :=
  (toneMapBuiltin tone).getD ("Rewrite to match tone: " ++ tone ++ ".")
    ++ "\n\nOriginal: " ++ jsInterp text ++ "\n\nRewritten:"

/-- The `toneInstructions` object literal of the remote variant's `refine` branch. -/
def toneInstructionsRemote (tone : String) : Option String :=
  if tone = "formal" then some "Rewrite the following message to be more formal and professional."
  else if tone = "friendly" then some "Rewrite the following message to be more friendly and casual."
  else if tone = "concise" then some "Rewrite the following message to be more concise and to the point."
  else if tone = "sarcastic" then some "Rewrite the following message to be slightly sarcastic while remaining appropriate."
  else none

/-- The instruction string built by the remote variant's `refine` branch:
`` `${toneInstructions[tone] || 'Rewrite with a different tone.'}\n\nOriginal:\n${request.text}\n\nRewritten:` ``. -/
def refineInstructionRemote (tone : String) (text : Option String) : String :=
  (toneInstructionsRemote tone).getD "Rewrite with a different tone."
    ++ "\n\nOriginal:\n" ++ jsInterp text ++ "\n\nRewritten:"

/-- `request.tone || 'formal'` — the tone default applied by both `refine`
branches. -/
def toneOrFormal (tone : Option String) : String := (jsTruthy tone).getD "formal"

/-- Substring containment on strings, via list infix. -/
def strContains (needle hay : String) : Bool :=
  decide (needle.toList <:+: hay.toList)

/- ------------------------------------------------------------------
   waitForAvailabilityOriginTrial / waitForAvailabilityWindowAI
   ------------------------------------------------------------------ -/

/-- One execution of the polling loop shared by
`waitForAvailabilityOriginTrial` and `waitForAvailabilityWindowAI`:

```js
const start = Date.now();
while ((Date.now() - start) / 1000 < timeoutSeconds) {
  try { const avail = await availability(); if (ok(avail)) return true; } catch (e) {}
  await delay(1500);
}
return false;
```

Time is modelled in simulated milliseconds: each iteration advances the clock
by the 1500 ms `delay` (the `availability()` round-trip itself is counted as
instantaneous).  `avail k` is the truthiness of
`avail && (avail.available || avail.deviceAvailable)` on the `k`-th poll; a
poll whose `availability()` call throws is an `avail k = false` poll, since the
loop swallows the exception and continues.  Returns
`(found, elapsedMs, pollCount)`. -/
def waitLoopAux (avail : Nat → Bool) (timeoutMs elapsed k : Nat) : Bool × Nat × Nat :=
  if h : elapsed < timeoutMs then
    if avail k then (true, elapsed, k + 1)
    else waitLoopAux avail timeoutMs (elapsed + 1500) (k + 1)
  else (false, elapsed, k)
termination_by timeoutMs - elapsed
decreasing_by omega

/-- `waitForAvailabilityOriginTrial(timeoutSeconds)` (identical in shape to
`waitForAvailabilityWindowAI`): the loop guard compares fractional seconds
`(Date.now() - start) / 1000 < timeoutSeconds`, i.e. milliseconds against
`timeoutSeconds * 1000`. -/
def waitForAvailability (avail : Nat → Bool) (timeoutSeconds : Nat) : Bool × Nat × Nat :=
  waitLoopAux avail (timeoutSeconds * 1000) 0 0

/- ------------------------------------------------------------------
   ensureLanguageModelReady — sequential (single-caller) embedding
   ------------------------------------------------------------------ -/

/-- The module-level mutable globals of the built-in `background.js`
(`_lmSession`, `_lmType`, `_isInitializing`) together with the
`builtinAIStatus` value last written to `chrome.storage.local` by
`setBuiltinStatus`.  Sessions are opaque ids. -/
structure LMState where
  lmSession : Option Nat
  lmType : Option APIKind
  isInitializing : Bool
  status : BStatus
  deriving DecidableEq, Repr

/-- The external world as observed by one `ensureLanguageModelReady` call. -/
structure LMEnv where
  /-- result of `detectBuiltInAPI()`. -/
  detected : Option APIKind
  /-- truthiness of the fast-path `availability()` check on an existing
  session; `none` means that call threw (the code then falls through). -/
  availPre : Option Bool
  /-- outcome of `languageModel.create(...)` for the detected entrypoint. -/
  createResult : Except String Nat
  /-- truthiness of the `availability()` check right after `create`;
  `none` means that call threw (caught by the outer `catch`). -/
  availPost : Option Bool
  /-- truthiness of the `k`-th `availability()` poll inside the wait loop. -/
  availSeq : Nat → Bool
  /-- the opaque `chrome.ai` object used as session on the `chromeAI` path. -/
  chromeAiObj : Nat
  /-- outcome observed by the storage-polling branch taken when another
  initialization is already in flight. -/
  otherInit : Except String Unit

/-- Counts of the backend interactions an `ensureLanguageModelReady` call
performed, plus the simulated time spent inside the availability wait loop. -/
structure LMTrace where
  createCalls : Nat
  availCalls : Nat
  waitElapsedMs : Nat
  deriving DecidableEq, Repr

/-- The timeout error thrown by `ensureLanguageModelReady` when the wait loop
gives up. -/
def timeoutMsg : String := "Language model not available after download timeout"

/-- The error thrown when `detectBuiltInAPI()` returns `null`. -/
def notAvailableMsg : String := "Chrome Built-in AI APIs not available in this browser/profile."

/-- Shared tail of the `originTrial` and `windowAI` initialization paths of
`ensureLanguageModelReady`: after `create` succeeded (session `s`), check
availability once; if not available, publish `downloading` and run the
10-minute wait loop; publish `ready` or `error` accordingly.  A throwing
post-create `availability()` is routed to the outer `catch` (status `error`). -/
def ensureLMAfterCreate (env : LMEnv) (st : LMState) (s : Nat) (availCallsSoFar : Nat) :
    Except String (Option Nat) × LMState × LMTrace :=
  let st := { st with lmSession := some s }
  match env.availPost with
  | none =>
      -- `await availability()` threw: outer catch clears the flag, sets 'error'
      (.error "availability failed",
        { st with isInitializing := false, status := .error },
        { createCalls := 1, availCalls := availCallsSoFar + 1, waitElapsedMs := 0 })
  | some true =>
      (.ok (some s),
        { st with isInitializing := false, status := .ready },
        { createCalls := 1, availCalls := availCallsSoFar + 1, waitElapsedMs := 0 })
  | some false =>
      let st := { st with status := .downloading }
      let r := waitForAvailability env.availSeq (60 * 10)
      if r.1 then
        (.ok (some s),
          { st with isInitializing := false, status := .ready },
          { createCalls := 1, availCalls := availCallsSoFar + 1 + r.2.2,
            waitElapsedMs := r.2.1 })
      else
        (.error timeoutMsg,
          { st with isInitializing := false, status := .error },
          { createCalls := 1, availCalls := availCallsSoFar + 1 + r.2.2,
            waitElapsedMs := r.2.1 })

/-- Sequential embedding of `ensureLanguageModelReady` (background.js,
built-in variant), for a single caller running to completion with the given
environment.  Returns the call's outcome (the resolved `_lmSession`, or the
thrown error message), the final globals/status, and the interaction trace. -/
def ensureLM (env : LMEnv) (st : LMState) : Except String (Option Nat) × LMState × LMTrace :=
  let noTrace : LMTrace := { createCalls := 0, availCalls := 0, waitElapsedMs := 0 }
  -- fast path: `if (_lmSession) { ... }`
  let fast : Option (Except String (Option Nat) × LMState × LMTrace) :=
    match st.lmSession with
    | none => none
    | some s =>
        match st.lmType with
        | some .originTrial =>
            if env.availPre = some true then
              some (.ok (some s), st, { noTrace with availCalls := 1 })
            else none  -- falsy availability or a thrown check: fall through
        | some .windowAI =>
            if env.availPre = some true then
              some (.ok (some s), st, { noTrace with availCalls := 1 })
            else none
        | _ => some (.ok (some s), st, noTrace)  -- `chrome.ai` fallback: return directly
  match fast with
  | some r => r
  | none =>
    -- fall-through consumed one availability call iff an originTrial/windowAI
    -- session existed
    let preCalls : Nat :=
      match st.lmSession, st.lmType with
      | some _, some .originTrial => 1
      | some _, some .windowAI => 1
      | _, _ => 0
    match env.detected with
    | none =>
        (.error notAvailableMsg,
          { st with status := .not_available },
          { noTrace with availCalls := preCalls })
    | some kind =>
        let st := { st with lmType := some kind }
        if st.isInitializing then
          -- another initialization is in flight: poll storage until it settles
          match env.otherInit with
          | .ok _ => (.ok st.lmSession, st, { noTrace with availCalls := preCalls })
          | .error _ =>
              (.error "Initialization failed or unavailable", st,
                { noTrace with availCalls := preCalls })
        else
          let st := { st with isInitializing := true, status := .initializing }
          match kind with
          | .originTrial =>
              (match env.createResult with
               | .error m =>
                  (.error m, { st with isInitializing := false, status := .error },
                    { createCalls := 1, availCalls := preCalls, waitElapsedMs := 0 })
               | .ok s =>
                  let r := ensureLMAfterCreate env st s preCalls
                  r)
          | .windowAI =>
              (match env.createResult with
               | .error m =>
                  (.error m, { st with isInitializing := false, status := .error },
                    { createCalls := 1, availCalls := preCalls, waitElapsedMs := 0 })
               | .ok s =>
                  let r := ensureLMAfterCreate env st s preCalls
                  r)
          | .chromeAI =>
              (.ok (some env.chromeAiObj),
                { st with lmSession := some env.chromeAiObj,
                          isInitializing := false, status := .ready },
                { noTrace with availCalls := preCalls })

/-- A concrete environment whose backend never becomes available and whose
`create` call resolves to session 5. -/
def envNeverAvail : LMEnv :=
  { detected := some .originTrial
    availPre := some false
    createResult := .ok 5
    availPost := some false
    availSeq := fun _ => false
    chromeAiObj := 0
    otherInit := .ok () }

/-- Fresh globals: no session, not initializing. -/
def freshLMState : LMState :=
  { lmSession := none, lmType := none, isInitializing := false,
    status := .not_initialized }

/-- Globals holding a ready `originTrial` session (id 5). -/
def stReadyOT : LMState :=
  { lmSession := some 5, lmType := some .originTrial, isInitializing := false,
    status := .ready }

/-- Globals holding a ready `chromeAI` session. -/
def stReadyChromeAI : LMState :=
  { lmSession := some 7, lmType := some .chromeAI, isInitializing := false,
    status := .ready }

/-- An environment whose backend reports continued availability. -/
def envAvailOk : LMEnv :=
  { detected := some .originTrial
    availPre := some true
    createResult := .ok 9
    availPost := some true
    availSeq := fun _ => true
    chromeAiObj := 7
    otherInit := .ok () }

/- ------------------------------------------------------------------
   Cross-context messages
   ------------------------------------------------------------------ -/

/-- The optional `context` object `{emotion, intent}` attached to `generate`
requests. -/
structure Ctx where
  emotion : Option String
  intent : Option String
  deriving DecidableEq, Repr

/-- A `chrome.runtime.sendMessage` request as seen by either background
listener; absent fields are `none`.  `rtype` stands for the request's `type`
field. -/
structure Request where
  action : String
  text : Option String := none
  rtype : Option String := none
  tone : Option String := none
  image : Option String := none
  context : Option Ctx := none
  apiKey : Option String := none
  proxyUrl : Option String := none
  deriving DecidableEq, Repr

/- ------------------------------------------------------------------
   Built-in variant: onMessage listener
   ------------------------------------------------------------------ -/

/-- A JavaScript value as returned by the builtin prompt/write API: `null`, a
plain string, or an object.  For an object we record the optional
`structuredOutput` field, the object itself read as an analysis payload
(`resp.structuredOutput || resp`), and its optional `text`/`result` string
fields. -/
inductive JsVal where
  | vnull
  | vstr (s : String)
  | vobj (structuredOutput : Option Analysis) (self : Analysis)
      (text : Option String) (result : Option String)
  deriving DecidableEq, Repr

/-- `String(resp || '')`: the string coercion applied before the regex
extraction in the `analyze` branch. -/
def JsVal.toRaw : JsVal → String
  | .vnull => ""
  | .vstr s => s
  | .vobj _ _ _ _ => "[object Object]"

/-- `(resp?.text ?? resp?.result ?? String(resp || '')).toString()`: the text
extraction of the `generate`/`refine` branches (`??` keeps an empty string). -/
def JsVal.textOut : JsVal → String
  | .vnull => ""
  | .vstr s => s
  | .vobj _ _ t r => t.getD (r.getD "[object Object]")

/-- The external world as observed by the built-in variant's message
listener: the detected entrypoint, the outcome of
`ensureLanguageModelReady()`, the prompt call keyed by its instruction text,
`JSON.parse` on an extracted candidate, and the stored
`builtinAIStatus`/`builtinAIProgress`/`builtinAIMessage` values. -/
structure BEnv where
  detected : Option APIKind
  ensure : Except String Unit
  prompt : String → Except String JsVal
  parse : String → Option Analysis
  storedStatus : Option String
  storedProgress : Option Nat
  storedMessage : Option String

/-- The response object passed to `sendResponse` by the built-in listener;
fields that a given call site does not set are `none`. -/
structure BResp where
  success : Option Bool := none
  error : Option String := none
  message : Option String := none
  status : Option String := none
  progress : Option Nat := none
  analysis : Option Analysis := none
  text : Option String := none
  deriving DecidableEq, Repr

/-- Counts of `ensureLanguageModelReady` attempts and prompt calls performed
while answering one request. -/
structure BTrace where
  ensureCalls : Nat := 0
  promptCalls : Nat := 0
  deriving DecidableEq, Repr

/-- `builtinPrompt({instructions, ...})`: first awaits
`ensureLanguageModelReady()` (whose failure propagates), then issues the
prompt through the runtime-appropriate entrypoint. -/
def builtinPromptM (env : BEnv) (instructions : String) :
    Except String JsVal × BTrace :=
  match env.ensure with
  | .error e => (.error e, { ensureCalls := 1, promptCalls := 0 })
  | .ok _ => (env.prompt instructions, { ensureCalls := 1, promptCalls := 1 })

/-- The `analyze` instruction template of the built-in listener
(`Message: ${request.text || ''}`). -/
def analyzeInstructionsBuiltin (text : Option String) : String :=
  "\nAnalyze the following message and return JSON with keys:\n- emotion: one-word tone (e.g., Happy, Anxious, Upset, Neutral, Excited, Frustrated)\n- intent: one-word intent (Request, Question, Statement, Complaint, Invitation)\n- suggestedAction: short suggestion (e.g., \"Generate Confirmation Reply\", \"Generate Supportive Reply\", \"Generate Question Response\")\n\nRespond ONLY with JSON.\n\nMessage: "
    ++ jsOrEmpty text ++ "\n"

/-- The `generate` instruction builder of the built-in listener
(`const type = request.type || 'reply'` and the three template cases). -/
def generateInstructionsBuiltin (req : Request) : String :=
  let ty := (jsTruthy req.rtype).getD "reply"
  if ty = "reply" ∨ ty = "confirmation" ∨ ty = "supportive" then
    let ctx := req.context.getD { emotion := none, intent := none }
    let toneHint := match jsTruthy ctx.emotion with
      | some e => "The message tone is " ++ e ++ "."
      | none => ""
    let intentHint := match jsTruthy ctx.intent with
      | some i => "Detected intent: " ++ i ++ "."
      | none => ""
    "You are a helpful assistant. " ++ toneHint ++ " " ++ intentHint ++
      "\nGenerate a single reply to the following message. Keep it natural and conversational. Keep it short to medium length.\n\nMessage: "
      ++ jsInterp req.text ++ "\n\nReply:"
  else if ty = "summarize" then
    "Provide a concise 1-2 sentence summary of the following text:\n\n"
      ++ jsInterp req.text ++ "\n\nSummary:"
  else
    "Write a helpful reply for the following message:\n\n"
      ++ jsInterp req.text ++ "\n\nReply:"

/-- The `chrome.runtime.onMessage` listener of the built-in variant of
`background.js`, as a function from a request and the external world to the
single response it passes to `sendResponse`, plus the interaction trace.
Mirrors the listener's branch order: `initBuiltinAI`, `getBuiltinStatus`, the
availability short-circuit for `analyze`/`generate`/`refine`, the three action
branches, and the unknown-action fallthrough. -/
def builtinHandle (env : BEnv) (req : Request) : BResp × BTrace :=
  let noT : BTrace := {}
  if req.action = "initBuiltinAI" then
    match env.ensure with
    | .ok _ => ({ success := some true, status := some "ready" }, { ensureCalls := 1 })
    | .error m => ({ error := some "init_failed", message := some m }, { ensureCalls := 1 })
  else if req.action = "getBuiltinStatus" then
    ({ success := some true,
       status := some ((jsTruthy env.storedStatus).getD "unknown"),
       progress := some (env.storedProgress.getD 0),
       message := some (env.storedMessage.getD "") }, noT)
  else if (req.action = "analyze" ∨ req.action = "generate" ∨ req.action = "refine")
      ∧ env.detected = none then
    ({ error := some "NOT_AVAILABLE", message := some notAvailableMsg }, noT)
  else if req.action = "analyze" then
    match builtinPromptM env (analyzeInstructionsBuiltin req.text) with
    | (.error e, tr) => ({ error := some e }, tr)
    | (.ok (.vobj so self _ _), tr) =>
        ({ success := some true, analysis := some (so.getD self) }, tr)
    | (.ok v, tr) =>
        match jsonMatch v.toRaw with
        | some cand =>
            match env.parse cand with
            | some parsed => ({ success := some true, analysis := some parsed }, tr)
            | none => ({ success := some true, analysis := some defaultAnalysis }, tr)
        | none => ({ success := some true, analysis := some defaultAnalysis }, tr)
  else if req.action = "generate" then
    match builtinPromptM env (generateInstructionsBuiltin req) with
    | (.error e, tr) => ({ error := some e }, tr)
    | (.ok v, tr) => ({ success := some true, text := some v.textOut }, tr)
  else if req.action = "refine" then
    match builtinPromptM env (refineInstructionBuiltin (toneOrFormal req.tone) req.text) with
    | (.error e, tr) => ({ error := some e }, tr)
    | (.ok v, tr) => ({ success := some true, text := some v.textOut }, tr)
  else
    ({ error := some "Unknown action" }, noT)

/-- A response is exactly one of the two variants: the success variant
(`success: true`, no `error`) or the failure variant (an `error` string, no
`success`). -/
def BResp.wellFormed (r : BResp) : Prop :=
  (r.success = some true ∧ r.error = none) ∨ (r.error.isSome ∧ r.success = none)

/- ------------------------------------------------------------------
   Remote (Gemini) variant: storage, callBackend, onMessage listener
   ------------------------------------------------------------------ -/

/-- The `chrome.storage.local` keys used by the remote variant. -/
structure RStorage where
  geminiApiKey : Option String := none
  proxyUrl : Option String := none
  dailyUsage : Option Usage := none
  deriving DecidableEq, Repr

/-- `getApiConfig()`:
`{ apiKey: (res.geminiApiKey || '').trim() || null, proxyUrl: (res.proxyUrl || '').trim() || null }`. -/
def getApiConfig (st : RStorage) : Option String × Option String :=
  (jsTruthy (some (jsTrim (st.geminiApiKey.getD ""))),
   jsTruthy (some (jsTrim (st.proxyUrl.getD ""))))

/-- The external world as observed by the remote listener: the proxy call
(url and prompt to outcome), the direct Gemini call (API key and prompt to
outcome), and `JSON.parse` on an extracted candidate.  The model name and
the per-action `generationConfig` constants are fixed at each call site and
folded into the oracles. -/
structure REnv where
  proxyCall : String → String → Except String String
  geminiCall : String → String → Except String String
  parse : String → Option Analysis

/-- `callBackend(model, prompt, ...)`: prefer the configured proxy; otherwise
require an API key and call Gemini directly. -/
def callBackend (env : REnv) (st : RStorage) (prompt : String) : Except String String :=
  match getApiConfig st with
  | (_, some p) => env.proxyCall p prompt
  | (none, none) =>
      .error "No API key configured. Please set your Google AI Studio API key in the extension popup."
  | (some k, none) => env.geminiCall k prompt

/-- The response object passed to `sendResponse` by the remote listener. -/
structure RResp where
  success : Option Bool := none
  error : Option String := none
  message : Option String := none
  apiKeySet : Option Bool := none
  proxyUrl : Option String := none
  usage : Option Usage := none
  softLimit : Option Nat := none
  analysis : Option Analysis := none
  text : Option String := none
  deriving DecidableEq, Repr

/-- Exactly one response variant is populated (remote listener). -/
def RResp.wellFormed (r : RResp) : Prop :=
  (r.success = some true ∧ r.error = none) ∨ (r.error.isSome ∧ r.success = none)

/-- The `analyze` prompt template of the remote listener
(`Message: "${request.text}"`). -/
def analyzePromptRemote (text : Option String) : String :=
  "Analyze the following message and provide:\n1. The emotional tone (e.g., Happy, Anxious, Upset, Neutral, Excited, Frustrated)\n2. The sender's intent (e.g., Request, Question, Statement, Complaint, Invitation)\n3. A suggested action (e.g., \"Generate Confirmation Reply\", \"Generate Supportive Reply\", \"Generate Question Response\")\n\nRespond in JSON format:\n\x7b\n  \"emotion\": \"detected emotion\",\n  \"intent\": \"detected intent\",\n  \"suggestedAction\": \"action suggestion\"\n\x7d\n\nMessage: \""
    ++ jsInterp text ++ "\""

/-- The `generate` instruction builder of the remote listener. -/
def generateInstructionsRemote (req : Request) : String :=
  let ty := (jsTruthy req.rtype).getD "reply"
  if ty = "reply" then
    let ctx := req.context.getD { emotion := none, intent := none }
    let c := match jsTruthy ctx.emotion with
      | some e => "Tone: " ++ e ++ "."
      | none => ""
    let it := match jsTruthy ctx.intent with
      | some i => "Intent: " ++ i ++ "."
      | none => ""
    "Generate a thoughtful, contextually appropriate reply to the following message. Keep it natural and conversational. "
      ++ c ++ " " ++ it ++ "\n\nMessage:\n" ++ jsInterp req.text ++ "\n\nReply:"
  else if ty = "summarize" then
    "Provide a concise summary (1-2 sentences) of the following text:\n\n"
      ++ jsInterp req.text ++ "\n\nSummary:"
  else if ty = "confirmation" then
    "Generate a brief, friendly confirmation reply to the following message:\n\n"
      ++ jsInterp req.text ++ "\n\nReply:"
  else if ty = "supportive" then
    "Generate a warm, supportive reply to the following message:\n\n"
      ++ jsInterp req.text ++ "\n\nReply:"
  else
    "Generate a reply:\n" ++ jsInterp req.text ++ "\n\nReply:"

/-- The `chrome.runtime.onMessage` listener of the remote variant of
`background.js`, as a function from today's date, the stored state and a
request to the single `sendResponse` payload and the updated storage.
Mirrors the branch order: `saveApiKey`, `setProxyUrl`, `getConfig`,
`analyze`, `generate`, `refine`, unknown. -/
def remoteHandle (env : REnv) (today : String) (st : RStorage) (req : Request) :
    RResp × RStorage :=
  if req.action = "saveApiKey" then
    ({ success := some true }, { st with geminiApiKey := req.apiKey })
  else if req.action = "setProxyUrl" then
    ({ success := some true }, { st with proxyUrl := some (jsOrEmpty req.proxyUrl) })
  else if req.action = "getConfig" then
    let cfg := getApiConfig st
    let usage := st.dailyUsage.getD { date := none, count := some 0 }
    ({ success := some true, apiKeySet := some cfg.1.isSome,
       proxyUrl := some (cfg.2.getD ""), usage := some usage,
       softLimit := some 200 }, st)
  else if req.action = "analyze" then
    match callBackend env st (analyzePromptRemote req.text) with
    | .error e => ({ error := some e }, st)
    | .ok raw =>
        let analysis :=
          match jsonMatch raw with
          | some cand => (env.parse cand).getD defaultAnalysis
          | none => defaultAnalysis
        ({ success := some true, analysis := some analysis },
         { st with dailyUsage := some (incrementUsage today st.dailyUsage) })
  else if req.action = "generate" then
    match callBackend env st (generateInstructionsRemote req) with
    | .error e => ({ error := some e }, st)
    | .ok raw =>
        ({ success := some true, text := some (jsTrim raw) },
         { st with dailyUsage := some (incrementUsage today st.dailyUsage) })
  else if req.action = "refine" then
    match callBackend env st (refineInstructionRemote (toneOrFormal req.tone) req.text) with
    | .error e => ({ error := some e }, st)
    | .ok raw =>
        ({ success := some true, text := some (jsTrim raw) },
         { st with dailyUsage := some (incrementUsage today st.dailyUsage) })
  else
    ({ error := some "Unknown action" }, st)

/- ------------------------------------------------------------------
   ai-bridge.js (page context): ensureSession and handleSummarize
   ------------------------------------------------------------------ -/

/-- The external world as observed by the bridge's summarize path: whether the
global `Summarizer` exists and its `availability()`/`create`/`summarize`
outcomes, plus the `LanguageModel` (Prompt API) used by `ensureSession` and
`session.prompt`. -/
structure BridgeEnv where
  summarizerPresent : Bool
  summarizerAvail : String
  summarizerCreate : Except String Unit
  summarizeResult : Except String String
  lmPresent : Bool
  lmAvailability : String
  lmCreate : Except String Unit
  promptResult : String → Except String String

/-- A message posted back by the bridge (`post({requestId, ...})`); the
dispatcher wraps handler rejections as `{success:false, error}`. -/
structure BridgePost where
  success : Bool
  text : Option String := none
  error : Option String := none
  deriving DecidableEq, Repr

/-- The success post `{requestId, success: true, text}` shared by every
bridge handler. -/
def bridgeSuccess (t : String) : BridgePost := { success := true, text := some t }

/-- The failure post produced by the dispatcher's
`.catch(err => post({requestId, success:false, error: String(err)}))`. -/
def bridgeFailure (e : String) : BridgePost := { success := false, error := some e }

/-- `ensureSession()` from `ai-bridge.js`: requires the `LanguageModel`
global, rejects when `availability() === 'unavailable'`, and otherwise
creates (or reuses) the session. -/
def ensureSession (env : BridgeEnv) : Except String Unit :=
  if ¬ env.lmPresent then
    .error "Prompt API (LanguageModel) not available in this context."
  else if env.lmAvailability = "unavailable" then
    .error "No local model available on this device (LanguageModel.availability() === unavailable)."
  else env.lmCreate

/-- The dedicated-summarizer attempt of `handleSummarize`: `some out` when
the `Summarizer` path posted a result, `none` when it was skipped (global
absent) or any step of it threw (the `catch` falls through to the Prompt-API
fallback). -/
def tryDedicatedSummarizer (env : BridgeEnv) : Option String :=
  if env.summarizerPresent then
    if env.summarizerAvail = "unavailable" then none
    else
      match env.summarizerCreate, env.summarizeResult with
      | .ok _, .ok out => some out
      | _, _ => none
  else none

/-- The generic-prompt fallback text template of `handleSummarize`. -/
def summaryPromptBridge (text : String) : String :=
  "Provide a concise 1-2 sentence summary of the following text:\n\n" ++ text

/-- `handleSummarize({text, requestId})` from `ai-bridge.js`, composed with
the dispatcher's `.catch`: prefer the dedicated `Summarizer`; on absence or
failure fall back to the Prompt API (whose failure is posted as the failure
variant by the dispatcher). -/
def handleSummarize (env : BridgeEnv) (text : String) : BridgePost :=
  match tryDedicatedSummarizer env with
  | some out => bridgeSuccess out
  | none =>
      match ensureSession env with
      | .error e => bridgeFailure e
      | .ok _ =>
          match env.promptResult (summaryPromptBridge text) with
          | .ok resp => bridgeSuccess resp
          | .error e => bridgeFailure e

/- ------------------------------------------------------------------
   ensureLanguageModelReady — concurrent callers (originTrial path)
   ------------------------------------------------------------------ -/

/-- The suspension point at which one concurrent `ensureLanguageModelReady`
caller currently sits.  The initializing caller moves through
`creating → availCheck → (waitingAvail) → doneOk/doneErr`; a coalescing
caller sits at `polling` (the 500 ms storage poll) until it observes a
terminal status. -/
inductive CallerPC where
  | start
  | creating
  | availCheck
  | waitingAvail
  | polling
  | doneOk (session : Option Nat)
  | doneErr
  deriving DecidableEq, Repr

/-- Did the caller's promise settle? -/
def CallerPC.isDone : CallerPC → Bool
  | .doneOk _ => true
  | .doneErr => true
  | _ => false

/-- Global state of the background worker shared by `n` concurrent
`ensureLanguageModelReady` callers on the `originTrial` path: the globals
`_lmSession` and `_isInitializing`, the published `builtinAIStatus`, the
number of `languageModel.create` calls issued so far, and each caller's
program counter. -/
structure CState (n : Nat) where
  lmSession : Option Nat
  isInitializing : Bool
  status : BStatus
  createCalls : Nat
  pc : Fin n → CallerPC

/-- One asynchronous step of the system: either a caller's synchronous entry
prefix runs, or some pending promise (create, availability check, wait loop,
storage poll) settles and the corresponding continuation runs.  The
continuations are the code between consecutive `await`s of
`ensureLanguageModelReady`; the JavaScript event loop runs each such
continuation atomically. -/
inductive CStep : {n : Nat} → CState n → CState n → Prop where
  | enterInit {n : Nat} (gs : CState n) (i : Fin n)
      (hpc : gs.pc i = .start) (hflag : gs.isInitializing = false)
      (hsess : gs.lmSession = none) :
      CStep gs { lmSession := gs.lmSession, isInitializing := true,
                 status := .initializing, createCalls := gs.createCalls + 1,
                 pc := Function.update gs.pc i .creating }
  | enterWait {n : Nat} (gs : CState n) (i : Fin n)
      (hpc : gs.pc i = .start) (hflag : gs.isInitializing = true) :
      CStep gs { gs with pc := Function.update gs.pc i .polling }
  | createResolved {n : Nat} (gs : CState n) (i : Fin n) (s : Nat)
      (hpc : gs.pc i = .creating) :
      CStep gs { gs with
                 lmSession := some s
                 pc := Function.update gs.pc i .availCheck }
  | createFailed {n : Nat} (gs : CState n) (i : Fin n)
      (hpc : gs.pc i = .creating) :
      CStep gs { gs with
                 isInitializing := false
                 status := .error
                 pc := Function.update gs.pc i .doneErr }
  | availCheckTrue {n : Nat} (gs : CState n) (i : Fin n) (s : Nat)
      (hpc : gs.pc i = .availCheck) (hsess : gs.lmSession = some s) :
      CStep gs { gs with
                 isInitializing := false
                 status := .ready
                 pc := Function.update gs.pc i (.doneOk (some s)) }
  | availCheckFalse {n : Nat} (gs : CState n) (i : Fin n)
      (hpc : gs.pc i = .availCheck) :
      CStep gs { gs with
                 status := .downloading
                 pc := Function.update gs.pc i .waitingAvail }
  | availCheckThrew {n : Nat} (gs : CState n) (i : Fin n)
      (hpc : gs.pc i = .availCheck) :
      CStep gs { gs with
                 isInitializing := false
                 status := .error
                 pc := Function.update gs.pc i .doneErr }
  | waitSucceeded {n : Nat} (gs : CState n) (i : Fin n) (s : Nat)
      (hpc : gs.pc i = .waitingAvail) (hsess : gs.lmSession = some s) :
      CStep gs { gs with
                 isInitializing := false
                 status := .ready
                 pc := Function.update gs.pc i (.doneOk (some s)) }
  | waitTimedOut {n : Nat} (gs : CState n) (i : Fin n)
      (hpc : gs.pc i = .waitingAvail) :
      CStep gs { gs with
                 isInitializing := false
                 status := .error
                 pc := Function.update gs.pc i .doneErr }
  | pollSawReady {n : Nat} (gs : CState n) (i : Fin n)
      (hpc : gs.pc i = .polling) (hst : gs.status = .ready) :
      CStep gs { gs with pc := Function.update gs.pc i (.doneOk gs.lmSession) }
  | pollSawFailure {n : Nat} (gs : CState n) (i : Fin n)
      (hpc : gs.pc i = .polling)
      (hst : gs.status = .error ∨ gs.status = .not_available) :
      CStep gs { gs with pc := Function.update gs.pc i .doneErr }

/-- The state reached after all `n` concurrent callers have run their
synchronous entry prefixes, with caller `i₀` having arrived first.

When `ensureLanguageModelReady` is invoked with `_lmSession === null`, its
body runs synchronously (no `await`) through the `detectBuiltInAPI` check and
the `_isInitializing` test: the first caller finds the flag `false`, sets it,
publishes `'initializing'`, and issues the single `languageModel.create`
call; each later caller finds the flag `true` and enters the storage-polling
branch.  Since the event loop is single threaded, all `n` entry prefixes run
before any promise created by them can resolve, which is precisely the
claim's premise that the calls are issued before any resolves. -/
def postSync (n : Nat) (i₀ : Fin n) : CState n :=
  { lmSession := none, isInitializing := true, status := .initializing,
    createCalls := 1,
    pc := Function.update (fun _ => CallerPC.polling) i₀ .creating }

/-- Concrete 2-caller run, state 0: the post-entry state with caller 0
initializing. -/
def cs0 : CState 2 := postSync 2 0

/-- Run state 1: the `create` call resolved with session 7. -/
def cs1 : CState 2 :=
  { cs0 with lmSession := some 7, pc := Function.update cs0.pc 0 .availCheck }

/-- Run state 2: the post-create availability check came back available; the
initializer published `ready` and resolved. -/
def cs2 : CState 2 :=
  { cs1 with
    isInitializing := false
    status := .ready
    pc := Function.update cs1.pc 0 (.doneOk (some 7)) }

/-- Run state 3: the polling caller observed `ready` and resolved with the
stored session. -/
def cs3 : CState 2 :=
  { cs2 with pc := Function.update cs2.pc 1 (.doneOk cs2.lmSession) }

/-- The inductive invariant of the coalescing protocol, relative to the
initializing caller `i₀`. -/
structure CInv {n : Nat} (i₀ : Fin n) (gs : CState n) : Prop where
  noStart : ∀ i, gs.pc i ≠ .start
  oneCreate : gs.createCalls = 1
  waiters : ∀ i, i ≠ i₀ →
    gs.pc i = .polling ∨ (∃ o, gs.pc i = .doneOk o) ∨ gs.pc i = .doneErr
  initShape : gs.pc i₀ = .creating ∨ gs.pc i₀ = .availCheck ∨
    gs.pc i₀ = .waitingAvail ∨ (∃ o, gs.pc i₀ = .doneOk o) ∨ gs.pc i₀ = .doneErr
  readyInv : gs.status = .ready → ∃ s, gs.lmSession = some s ∧ gs.pc i₀ = .doneOk (some s)
  errorInv : gs.status = .error → gs.pc i₀ = .doneErr
  initErr : gs.pc i₀ = .doneErr → gs.status = .error
  notNA : gs.status ≠ .not_available
  doneOkInv : ∀ i o, gs.pc i = .doneOk o → gs.status = .ready ∧ o = gs.lmSession
  doneErrInv : ∀ i, i ≠ i₀ → gs.pc i = .doneErr → gs.status = .error
  availCheckSess : gs.pc i₀ = .availCheck → ∃ s, gs.lmSession = some s
  waitingSess : gs.pc i₀ = .waitingAvail → ∃ s, gs.lmSession = some s

/- ------------------------------------------------------------------
   Concrete environments and states used by closed witnesses
   ------------------------------------------------------------------ -/

/-- A built-in environment in which `detectBuiltInAPI()` returns `null`. -/
def envNoBackend : BEnv :=
  { detected := none
    ensure := .error notAvailableMsg
    prompt := fun _ => .error "no backend"
    parse := fun _ => none
    storedStatus := none
    storedProgress := none
    storedMessage := none }

/-- A built-in environment whose model replies to every prompt with prose
containing no JSON object. -/
def envProse : BEnv :=
  { detected := some .originTrial
    ensure := .ok ()
    prompt := fun _ => .ok (.vstr "The mood seems upbeat overall.")
    parse := fun _ => none
    storedStatus := some "ready"
    storedProgress := some 100
    storedMessage := some "" }

/-- A remote environment whose backend echoes the prompt it was sent. -/
def renvEcho : REnv :=
  { proxyCall := fun _ prompt => .ok prompt
    geminiCall := fun _ prompt => .ok prompt
    parse := fun _ => none }

/-- A remote environment whose backend is never reached. -/
def renvUnused : REnv :=
  { proxyCall := fun _ _ => .error "unreachable"
    geminiCall := fun _ _ => .error "unreachable"
    parse := fun _ => none }

/-- Remote storage configured with a proxy URL and a stale usage counter. -/
def stProxyStale : RStorage :=
  { geminiApiKey := none
    proxyUrl := some "https://proxy.example/generate"
    dailyUsage := some { date := some "2026-10-11", count := some 41 } }

/-- Remote storage whose stored API key is a single space (non-empty, but
blank after trimming). -/
def stKeyBlank : RStorage := { geminiApiKey := some " " }

/-- Remote storage with an ordinary API key. -/
def stKeyA : RStorage := { geminiApiKey := some "a" }

/-- A bridge environment without the dedicated `Summarizer` global but with a
working Prompt API. -/
def bridgeNoSummarizer : BridgeEnv :=
  { summarizerPresent := false
    summarizerAvail := "unavailable"
    summarizerCreate := .error "absent"
    summarizeResult := .error "absent"
    lmPresent := true
    lmAvailability := "available"
    lmCreate := .ok ()
    promptResult := fun _ => .ok "A short summary." }

/-- A bridge environment with a working dedicated `Summarizer`. -/
def bridgeWithSummarizer : BridgeEnv :=
  { summarizerPresent := true
    summarizerAvail := "available"
    summarizerCreate := .ok ()
    summarizeResult := .ok "A dedicated summary."
    lmPresent := true
    lmAvailability := "available"
    lmCreate := .ok ()
    promptResult := fun _ => .ok "A prompt summary." }

/-! ## Theorems -/

example : incrementUsage "2026-10-12" (some { date := some "2026-10-11", count := some 41 }) =
    { date := some "2026-10-12", count := some 1 } := by decide

example : incrementUsage "2026-10-12" (some { date := some "2026-10-12", count := some 41 }) =
    { date := some "2026-10-12", count := some 42 } := by decide

example : incrementUsage "2026-10-12" none =
    { date := some "2026-10-12", count := some 1 } := by decide

example : jsonMatch "noise \x7b\"a\":1\x7d tail" = some "\x7b\"a\":1\x7d" := by decide
example : jsonMatch "no braces at all" = none := by decide
example : jsonMatch "\x7d \x7b" = none := by decide
example : jsonMatch "a\x7bb\x7dc\x7bd" = some "\x7bb\x7d" := by decide

/-- When every availability poll is falsy, the wait loop runs to its time
bound and reports failure: it stops at the first multiple of 1500 ms reaching
the timeout, having polled once per 1500 ms slice. -/
theorem waitLoopAux_all_false (avail : Nat → Bool) (T : Nat)
    (h : ∀ m, avail m = false) :
    ∀ d e k, T - e ≤ d → 1500 ∣ (T - e) →
      waitLoopAux avail T e k = (false, max e T, k + (T - e) / 1500) := by
  intro d
  induction d with
  | zero =>
      intro e k hle hdvd
      have he : ¬ e < T := by omega
      rw [waitLoopAux]
      simp only [he, dif_neg, not_false_iff]
      have h1 : max e T = e := by omega
      have h2 : (T - e) / 1500 = 0 := by omega
      rw [h1, h2]
      simp
  | succ d ih =>
      intro e k hle hdvd
      by_cases hlt : e < T
      · rw [waitLoopAux]
        simp only [hlt, dif_pos, h k, if_false, Bool.false_eq_true]
        have hge : 1500 ≤ T - e := by
          rcases hdvd with ⟨c, hc⟩
          rcases Nat.eq_zero_or_pos c with hc0 | hc0 <;> omega
        have hrec := ih (e + 1500) (k + 1) (by omega) (by omega)
        rw [hrec]
        have h1 : max (e + 1500) T = max e T := by omega
        have h2 : k + 1 + (T - (e + 1500)) / 1500 = k + (T - e) / 1500 := by omega
        rw [h1, h2]
      · rw [waitLoopAux]
        simp only [hlt, dif_neg, not_false_iff]
        have h1 : max e T = e := by omega
        have h2 : (T - e) / 1500 = 0 := by omega
        rw [h1, h2]
        simp

/-- `waitForAvailability` at the configured 10-minute bound (600 s), under a
never-available backend: gives up with `false` exactly at 600 000 ms of
simulated waiting, after 400 polls. -/
theorem waitForAvailability_600_all_false (avail : Nat → Bool)
    (h : ∀ m, avail m = false) :
    waitForAvailability avail 600 = (false, 600000, 400) := by
  have hd : (1500 : Nat) ∣ (600 * 1000 - 0) := ⟨400, by norm_num⟩
  have := waitLoopAux_all_false avail (600 * 1000) h (600 * 1000) 0 0 (by omega) hd
  simpa [waitForAvailability] using this


/-- C6: against a backend whose model download never completes (every
availability poll falsy), `ensureLanguageModelReady` resolves to a failure —
the status is set to `'error'` and the timeout error is thrown — after exactly
600 000 ms (= 600 s = 10 min) of simulated availability polling, i.e. no later
than the configured bound; it never hangs (the embedded wait loop is a total
function). -/
theorem ensureReady_timeout_bound (env : LMEnv) (st : LMState) (s : Nat)
    (hsess : st.lmSession = none)
    (hinit : st.isInitializing = false)
    (hdet : env.detected = some .originTrial)
    (hcreate : env.createResult = .ok s)
    (hpost : env.availPost = some false)
    (hseq : ∀ k, env.availSeq k = false) :
    (ensureLM env st).1 = .error timeoutMsg ∧
    (ensureLM env st).2.1.status = .error ∧
    (ensureLM env st).2.1.isInitializing = false ∧
    (ensureLM env st).2.2.waitElapsedMs = 600000 ∧
    (ensureLM env st).2.2.waitElapsedMs ≤ 600 * 1000 := by
  have hw := waitForAvailability_600_all_false env.availSeq hseq
  simp [ensureLM, ensureLMAfterCreate, hsess, hinit, hdet, hcreate, hpost, hw]

/-- Closed witness for `ensureReady_timeout_bound` at a concrete never-available
environment. -/
theorem ensureReady_timeout_bound_witness :
    freshLMState.lmSession = none ∧
    freshLMState.isInitializing = false ∧
    envNeverAvail.detected = some .originTrial ∧
    envNeverAvail.createResult = .ok 5 ∧
    envNeverAvail.availPost = some false ∧
    (∀ k, envNeverAvail.availSeq k = false) ∧
    ((ensureLM envNeverAvail freshLMState).1 = .error timeoutMsg ∧
     (ensureLM envNeverAvail freshLMState).2.1.status = .error ∧
     (ensureLM envNeverAvail freshLMState).2.1.isInitializing = false ∧
     (ensureLM envNeverAvail freshLMState).2.2.waitElapsedMs = 600000 ∧
     (ensureLM envNeverAvail freshLMState).2.2.waitElapsedMs ≤ 600 * 1000) :=
  ⟨rfl, rfl, rfl, rfl, rfl, fun _ => rfl,
    ensureReady_timeout_bound envNeverAvail freshLMState 5 rfl rfl rfl rfl rfl
      (fun _ => rfl)⟩

/-- C3 (counterexample to the claim as stated): a call to
`ensureLanguageModelReady` made while an `originTrial` session exists and the
state is `ready` does return the existing session, but performs one backend
`availability()` call — not zero backend calls. -/
theorem ensureReady_fastpath_not_callfree :
    (ensureLM envAvailOk stReadyOT).1 = .ok (some 5) ∧
    (ensureLM envAvailOk stReadyOT).2.2.availCalls = 1 ∧
    (ensureLM envAvailOk stReadyOT).2.2.availCalls ≠ 0 := by
  refine ⟨rfl, rfl, ?_⟩
  decide

/-- C3 (amended): when a session exists and the state is `ready`,
`ensureLanguageModelReady` returns the existing session immediately, with zero
session-creation calls and at most one backend availability query (exactly
zero for the `chrome.ai` fallback), leaving the globals unchanged —
provided the backend confirms continued availability for the
`originTrial`/`windowAI` entrypoints. -/
theorem ensureReady_idempotent (env : LMEnv) (st : LMState) (s : Nat)
    (hsess : st.lmSession = some s)
    (_hready : st.status = .ready)
    (havail : env.availPre = some true ∨ st.lmType = some .chromeAI ∨ st.lmType = none) :
    (ensureLM env st).1 = .ok (some s) ∧
    (ensureLM env st).2.1 = st ∧
    (ensureLM env st).2.2.createCalls = 0 ∧
    (ensureLM env st).2.2.availCalls ≤ 1 := by
  rcases havail with h | h | h
  · cases hty : st.lmType with
    | none => simp [ensureLM, hsess, hty]
    | some k => cases k <;> simp [ensureLM, hsess, hty, h]
  · simp [ensureLM, hsess, h]
  · simp [ensureLM, hsess, h]

/-- Closed witness for `ensureReady_idempotent` on a ready `chrome.ai`
session. -/
theorem ensureReady_idempotent_witness :
    stReadyChromeAI.lmSession = some 7 ∧
    stReadyChromeAI.status = .ready ∧
    stReadyChromeAI.lmType = some .chromeAI ∧
    ((ensureLM envAvailOk stReadyChromeAI).1 = .ok (some 7) ∧
     (ensureLM envAvailOk stReadyChromeAI).2.1 = stReadyChromeAI ∧
     (ensureLM envAvailOk stReadyChromeAI).2.2.createCalls = 0 ∧
     (ensureLM envAvailOk stReadyChromeAI).2.2.availCalls ≤ 1) :=
  ⟨rfl, rfl, rfl,
    ensureReady_idempotent envAvailOk stReadyChromeAI 7 rfl rfl (Or.inr (Or.inl rfl))⟩

/-- Only the initializing caller `i₀` can sit at an initializer program
point. -/
theorem CInv.eq_init {n : Nat} {i₀ : Fin n} {gs : CState n} (inv : CInv i₀ gs)
    {i : Fin n}
    (h : gs.pc i = .creating ∨ gs.pc i = .availCheck ∨ gs.pc i = .waitingAvail) :
    i = i₀ := by
  by_contra hne
  rcases inv.waiters i hne with hp | ⟨o, hp⟩ | hp <;>
    rcases h with h | h | h <;> rw [hp] at h <;> cases h

/-- While the initializer is mid-flight, no terminal status has been
published and no caller has settled. -/
theorem CInv.midflight {n : Nat} {i₀ : Fin n} {gs : CState n} (inv : CInv i₀ gs)
    (h : gs.pc i₀ = .creating ∨ gs.pc i₀ = .availCheck ∨ gs.pc i₀ = .waitingAvail) :
    gs.status ≠ .ready ∧ gs.status ≠ .error ∧
    (∀ i o, gs.pc i ≠ .doneOk o) ∧ (∀ i, i ≠ i₀ → gs.pc i ≠ .doneErr) := by
  have hnr : gs.status ≠ .ready := by
    intro hr
    rcases inv.readyInv hr with ⟨s, _, hp⟩
    rcases h with h | h | h <;> rw [h] at hp <;> cases hp
  have hne : gs.status ≠ .error := by
    intro he
    have hp := inv.errorInv he
    rcases h with h | h | h <;> rw [h] at hp <;> cases hp
  refine ⟨hnr, hne, fun i o hp => hnr (inv.doneOkInv i o hp).1,
    fun i hi hp => hne (inv.doneErrInv i hi hp)⟩

/-- The coalescing invariant is preserved by every asynchronous step. -/
theorem CInv.step {n : Nat} {i₀ : Fin n} {gs gs' : CState n}
    (inv : CInv i₀ gs) (h : CStep gs gs') : CInv i₀ gs' := by
  cases h with
  | enterInit i hpc _ _ => exact absurd hpc (inv.noStart i)
  | enterWait i hpc _ => exact absurd hpc (inv.noStart i)
  | createResolved i s hpc =>
      have hii : i = i₀ := inv.eq_init (Or.inl hpc)
      subst hii
      obtain ⟨hnr, hne, hnok, hnerr⟩ := inv.midflight (Or.inl hpc)
      refine ⟨?_, inv.oneCreate, ?_, ?_, ?_, ?_, ?_, inv.notNA, ?_, ?_, ?_, ?_⟩
      · intro j
        by_cases hj : j = i
        · subst hj; simp [Function.update_same]
        · simpa [Function.update_noteq hj] using inv.noStart j
      · intro j hj
        simpa [Function.update_noteq hj] using inv.waiters j hj
      · simp [Function.update_same]
      · intro hr; exact absurd hr hnr
      · intro he; exact absurd he hne
      · intro hd; simp only [Function.update_same] at hd; cases hd
      · intro j o hd
        by_cases hj : j = i
        · subst hj; simp only [Function.update_same] at hd; cases hd
        · simp only [Function.update_noteq hj] at hd; exact absurd hd (hnok j o)
      · intro j hj hd
        simp only [Function.update_noteq hj] at hd
        exact absurd hd (hnerr j hj)
      · intro _; exact ⟨s, rfl⟩
      · intro hd; simp only [Function.update_same] at hd; cases hd
  | createFailed i hpc =>
      have hii : i = i₀ := inv.eq_init (Or.inl hpc)
      subst hii
      obtain ⟨hnr, hne, hnok, hnerr⟩ := inv.midflight (Or.inl hpc)
      refine ⟨?_, inv.oneCreate, ?_, ?_, ?_, ?_, ?_, by simp, ?_, ?_, ?_, ?_⟩
      · intro j
        by_cases hj : j = i
        · subst hj; simp [Function.update_same]
        · simpa [Function.update_noteq hj] using inv.noStart j
      · intro j hj
        simpa [Function.update_noteq hj] using inv.waiters j hj
      · right; right; right; right; simp only [Function.update_same]
      · intro hr; cases hr
      · intro _; simp only [Function.update_same]
      · intro _; rfl
      · intro j o hd
        by_cases hj : j = i
        · subst hj; simp only [Function.update_same] at hd; cases hd
        · simp only [Function.update_noteq hj] at hd; exact absurd hd (hnok j o)
      · intro j hj hd; rfl
      · intro hd; simp only [Function.update_same] at hd; cases hd
      · intro hd; simp only [Function.update_same] at hd; cases hd
  | availCheckTrue i s hpc hsess =>
      have hii : i = i₀ := inv.eq_init (Or.inr (Or.inl hpc))
      subst hii
      obtain ⟨hnr, hne, hnok, hnerr⟩ := inv.midflight (Or.inr (Or.inl hpc))
      refine ⟨?_, inv.oneCreate, ?_, ?_, ?_, ?_, ?_, by simp, ?_, ?_, ?_, ?_⟩
      · intro j
        by_cases hj : j = i
        · subst hj; simp [Function.update_same]
        · simpa [Function.update_noteq hj] using inv.noStart j
      · intro j hj
        simpa [Function.update_noteq hj] using inv.waiters j hj
      · right; right; right; left; exact ⟨some s, by simp only [Function.update_same]⟩
      · intro _; exact ⟨s, hsess, by simp only [Function.update_same]⟩
      · intro he; cases he
      · intro hd; simp only [Function.update_same] at hd; cases hd
      · intro j o hd
        by_cases hj : j = i
        · subst hj; simp only [Function.update_same] at hd
          cases hd; exact ⟨rfl, hsess.symm⟩
        · simp only [Function.update_noteq hj] at hd; exact absurd hd (hnok j o)
      · intro j hj hd
        simp only [Function.update_noteq hj] at hd
        exact absurd hd (hnerr j hj)
      · intro hd; simp only [Function.update_same] at hd; cases hd
      · intro hd; simp only [Function.update_same] at hd; cases hd
  | availCheckFalse i hpc =>
      have hii : i = i₀ := inv.eq_init (Or.inr (Or.inl hpc))
      subst hii
      obtain ⟨hnr, hne, hnok, hnerr⟩ := inv.midflight (Or.inr (Or.inl hpc))
      obtain ⟨s, hs⟩ := inv.availCheckSess hpc
      refine ⟨?_, inv.oneCreate, ?_, ?_, ?_, ?_, ?_, by simp, ?_, ?_, ?_, ?_⟩
      · intro j
        by_cases hj : j = i
        · subst hj; simp [Function.update_same]
        · simpa [Function.update_noteq hj] using inv.noStart j
      · intro j hj
        simpa [Function.update_noteq hj] using inv.waiters j hj
      · right; right; left; simp only [Function.update_same]
      · intro hr; cases hr
      · intro he; cases he
      · intro hd; simp only [Function.update_same] at hd; cases hd
      · intro j o hd
        by_cases hj : j = i
        · subst hj; simp only [Function.update_same] at hd; cases hd
        · simp only [Function.update_noteq hj] at hd; exact absurd hd (hnok j o)
      · intro j hj hd
        simp only [Function.update_noteq hj] at hd
        exact absurd hd (hnerr j hj)
      · intro hd; simp only [Function.update_same] at hd; cases hd
      · intro _; exact ⟨s, hs⟩
  | availCheckThrew i hpc =>
      have hii : i = i₀ := inv.eq_init (Or.inr (Or.inl hpc))
      subst hii
      obtain ⟨hnr, hne, hnok, hnerr⟩ := inv.midflight (Or.inr (Or.inl hpc))
      refine ⟨?_, inv.oneCreate, ?_, ?_, ?_, ?_, ?_, by simp, ?_, ?_, ?_, ?_⟩
      · intro j
        by_cases hj : j = i
        · subst hj; simp [Function.update_same]
        · simpa [Function.update_noteq hj] using inv.noStart j
      · intro j hj
        simpa [Function.update_noteq hj] using inv.waiters j hj
      · right; right; right; right; simp only [Function.update_same]
      · intro hr; cases hr
      · intro _; simp only [Function.update_same]
      · intro _; rfl
      · intro j o hd
        by_cases hj : j = i
        · subst hj; simp only [Function.update_same] at hd; cases hd
        · simp only [Function.update_noteq hj] at hd; exact absurd hd (hnok j o)
      · intro j hj hd; rfl
      · intro hd; simp only [Function.update_same] at hd; cases hd
      · intro hd; simp only [Function.update_same] at hd; cases hd
  | waitSucceeded i s hpc hsess =>
      have hii : i = i₀ := inv.eq_init (Or.inr (Or.inr hpc))
      subst hii
      obtain ⟨hnr, hne, hnok, hnerr⟩ := inv.midflight (Or.inr (Or.inr hpc))
      refine ⟨?_, inv.oneCreate, ?_, ?_, ?_, ?_, ?_, by simp, ?_, ?_, ?_, ?_⟩
      · intro j
        by_cases hj : j = i
        · subst hj; simp [Function.update_same]
        · simpa [Function.update_noteq hj] using inv.noStart j
      · intro j hj
        simpa [Function.update_noteq hj] using inv.waiters j hj
      · right; right; right; left; exact ⟨some s, by simp only [Function.update_same]⟩
      · intro _; exact ⟨s, hsess, by simp only [Function.update_same]⟩
      · intro he; cases he
      · intro hd; simp only [Function.update_same] at hd; cases hd
      · intro j o hd
        by_cases hj : j = i
        · subst hj; simp only [Function.update_same] at hd
          cases hd; exact ⟨rfl, hsess.symm⟩
        · simp only [Function.update_noteq hj] at hd; exact absurd hd (hnok j o)
      · intro j hj hd
        simp only [Function.update_noteq hj] at hd
        exact absurd hd (hnerr j hj)
      · intro hd; simp only [Function.update_same] at hd; cases hd
      · intro hd; simp only [Function.update_same] at hd; cases hd
  | waitTimedOut i hpc =>
      have hii : i = i₀ := inv.eq_init (Or.inr (Or.inr hpc))
      subst hii
      obtain ⟨hnr, hne, hnok, hnerr⟩ := inv.midflight (Or.inr (Or.inr hpc))
      refine ⟨?_, inv.oneCreate, ?_, ?_, ?_, ?_, ?_, by simp, ?_, ?_, ?_, ?_⟩
      · intro j
        by_cases hj : j = i
        · subst hj; simp [Function.update_same]
        · simpa [Function.update_noteq hj] using inv.noStart j
      · intro j hj
        simpa [Function.update_noteq hj] using inv.waiters j hj
      · right; right; right; right; simp only [Function.update_same]
      · intro hr; cases hr
      · intro _; simp only [Function.update_same]
      · intro _; rfl
      · intro j o hd
        by_cases hj : j = i
        · subst hj; simp only [Function.update_same] at hd; cases hd
        · simp only [Function.update_noteq hj] at hd; exact absurd hd (hnok j o)
      · intro j hj hd; rfl
      · intro hd; simp only [Function.update_same] at hd; cases hd
      · intro hd; simp only [Function.update_same] at hd; cases hd
  | pollSawReady i hpc hst =>
      have hni : i ≠ i₀ := by
        intro hii
        rcases inv.initShape with h | h | h | ⟨o, h⟩ | h <;>
          rw [hii, h] at hpc <;> cases hpc
      obtain ⟨s, hs, hp0⟩ := inv.readyInv hst
      refine ⟨?_, inv.oneCreate, ?_, ?_, ?_, ?_, ?_, inv.notNA, ?_, ?_, ?_, ?_⟩
      · intro j
        by_cases hj : j = i
        · subst hj; simp [Function.update_same]
        · simpa [Function.update_noteq hj] using inv.noStart j
      · intro j hj
        by_cases hji : j = i
        · subst hji; right; left
          exact ⟨gs.lmSession, by simp only [Function.update_same]⟩
        · simpa [Function.update_noteq hji] using inv.waiters j hj
      · rcases inv.initShape with h | h | h | ⟨o, h⟩ | h <;>
          [left; (right; left); (right; right; left);
           (right; right; right; left); (right; right; right; right)] <;>
          simp only [Function.update_noteq hni.symm] <;> [exact h; exact h; exact h;
            exact ⟨o, h⟩; exact h]
      · intro _
        exact ⟨s, hs, by simp only [Function.update_noteq hni.symm]; exact hp0⟩
      · intro he; rw [hst] at he; cases he
      · intro hd
        simp only [Function.update_noteq hni.symm] at hd
        exact inv.initErr hd
      · intro j o hd
        by_cases hj : j = i
        · subst hj; simp only [Function.update_same] at hd
          cases hd; exact ⟨hst, rfl⟩
        · simp only [Function.update_noteq hj] at hd; exact inv.doneOkInv j o hd
      · intro j hj hd
        by_cases hji : j = i
        · subst hji; simp only [Function.update_same] at hd; cases hd
        · simp only [Function.update_noteq hji] at hd
          exact inv.doneErrInv j hj hd
      · intro hd
        simp only [Function.update_noteq hni.symm] at hd
        exact inv.availCheckSess hd
      · intro hd
        simp only [Function.update_noteq hni.symm] at hd
        exact inv.waitingSess hd
  | pollSawFailure i hpc hst =>
      have hni : i ≠ i₀ := by
        intro hii
        rcases inv.initShape with h | h | h | ⟨o, h⟩ | h <;>
          rw [hii, h] at hpc <;> cases hpc
      have herr : gs.status = .error := by
        rcases hst with h | h
        · exact h
        · exact absurd h inv.notNA
      refine ⟨?_, inv.oneCreate, ?_, ?_, ?_, ?_, ?_, inv.notNA, ?_, ?_, ?_, ?_⟩
      · intro j
        by_cases hj : j = i
        · subst hj; simp [Function.update_same]
        · simpa [Function.update_noteq hj] using inv.noStart j
      · intro j hj
        by_cases hji : j = i
        · subst hji; right; right; simp only [Function.update_same]
        · simpa [Function.update_noteq hji] using inv.waiters j hj
      · rcases inv.initShape with h | h | h | ⟨o, h⟩ | h <;>
          [left; (right; left); (right; right; left);
           (right; right; right; left); (right; right; right; right)] <;>
          simp only [Function.update_noteq hni.symm] <;> [exact h; exact h; exact h;
            exact ⟨o, h⟩; exact h]
      · intro hr; rw [herr] at hr; cases hr
      · intro _
        simp only [Function.update_noteq hni.symm]
        exact inv.errorInv herr
      · intro _; exact herr
      · intro j o hd
        by_cases hj : j = i
        · subst hj; simp only [Function.update_same] at hd; cases hd
        · simp only [Function.update_noteq hj] at hd; exact inv.doneOkInv j o hd
      · intro j hj hd; exact herr
      · intro hd
        simp only [Function.update_noteq hni.symm] at hd
        exact inv.availCheckSess hd
      · intro hd
        simp only [Function.update_noteq hni.symm] at hd
        exact inv.waitingSess hd

/-- The invariant holds right after the synchronous entry phase. -/
theorem postSync_inv (n : Nat) (i₀ : Fin n) : CInv i₀ (postSync n i₀) := by
  refine ⟨?_, rfl, ?_, ?_, ?_, ?_, ?_, ?_, ?_, ?_, ?_, ?_⟩
  · intro i
    by_cases hi : i = i₀
    · subst hi; simp [postSync, Function.update_same]
    · simp [postSync, Function.update_noteq hi]
  · intro i hi; left; simp [postSync, Function.update_noteq hi]
  · left; simp [postSync, Function.update_same]
  · intro hr; simp [postSync] at hr
  · intro he; simp [postSync] at he
  · intro hd; simp [postSync, Function.update_same] at hd
  · simp [postSync]
  · intro i o hd
    by_cases hi : i = i₀
    · subst hi; simp [postSync, Function.update_same] at hd
    · simp [postSync, Function.update_noteq hi] at hd
  · intro i hi hd
    simp [postSync, Function.update_noteq hi] at hd
  · intro hd; simp [postSync, Function.update_same] at hd
  · intro hd; simp [postSync, Function.update_same] at hd

/-- C1: for `n` concurrent `ensureLanguageModelReady` calls all issued before
any resolves (state `postSync n i₀`), every reachable state of the system has
issued exactly one `languageModel.create` call — later callers attach to the
in-flight initialization through the `_isInitializing` flag and the stored
status — and whenever all callers have settled, either all of them resolved
with the same session or all of them failed. -/
theorem ensureReady_coalesces {n : Nat} (i₀ : Fin n) (gs : CState n)
    (h : Relation.ReflTransGen CStep (postSync n i₀) gs) :
    gs.createCalls = 1 ∧
    ((∀ i, (gs.pc i).isDone = true) →
      (∃ s, ∀ i, gs.pc i = .doneOk (some s)) ∨ (∀ i, gs.pc i = .doneErr)) := by
  have inv : CInv i₀ gs := by
    induction h with
    | refl => exact postSync_inv n i₀
    | tail _ hstep ih => exact ih.step hstep
  refine ⟨inv.oneCreate, fun hdone => ?_⟩
  have hcases : ∀ i, (∃ o', gs.pc i = .doneOk o') ∨ gs.pc i = .doneErr := by
    intro i
    have hdi := hdone i
    cases hpci : gs.pc i with
    | start => rw [hpci] at hdi; cases hdi
    | creating => rw [hpci] at hdi; cases hdi
    | availCheck => rw [hpci] at hdi; cases hdi
    | waitingAvail => rw [hpci] at hdi; cases hdi
    | polling => rw [hpci] at hdi; cases hdi
    | doneOk o' => exact Or.inl ⟨o', rfl⟩
    | doneErr => exact Or.inr rfl
  have hi0 := hdone i₀
  rcases inv.initShape with h0 | h0 | h0 | ⟨o, h0⟩ | h0
  · rw [h0] at hi0; cases hi0
  · rw [h0] at hi0; cases hi0
  · rw [h0] at hi0; cases hi0
  · obtain ⟨hready, _⟩ := inv.doneOkInv i₀ o h0
    obtain ⟨s, hs, _⟩ := inv.readyInv hready
    left
    refine ⟨s, fun i => ?_⟩
    rcases hcases i with ⟨o', hp⟩ | hp
    · obtain ⟨_, ho'⟩ := inv.doneOkInv i o' hp
      rw [hp, ho', hs]
    · by_cases hii : i = i₀
      · subst hii; rw [h0] at hp; cases hp
      · have herr := inv.doneErrInv i hii hp
        rw [hready] at herr; cases herr
  · right
    intro i
    rcases hcases i with ⟨o', hp⟩ | hp
    · obtain ⟨hr2, _⟩ := inv.doneOkInv i o' hp
      have herr := inv.initErr h0
      rw [herr] at hr2; cases hr2
    · exact hp

/-- Closed witness for `ensureReady_coalesces`: a complete two-caller run in
which caller 0 initializes (create resolves with session 7, availability
holds) and caller 1 coalesces by polling, both resolving with session 7. -/
theorem ensureReady_coalesces_witness :
    cs3.createCalls = 1 ∧
    ((∀ i, (cs3.pc i).isDone = true) →
      (∃ s, ∀ i, cs3.pc i = .doneOk (some s)) ∨ (∀ i, cs3.pc i = .doneErr)) := by
  have h01 : CStep cs0 cs1 := CStep.createResolved cs0 0 7 (by decide)
  have h12 : CStep cs1 cs2 := CStep.availCheckTrue cs1 0 7 (by decide) rfl
  have h23 : CStep cs2 cs3 := CStep.pollSawReady cs2 1 (by decide) rfl
  exact ensureReady_coalesces 0 cs3
    (Relation.ReflTransGen.head h01
      (Relation.ReflTransGen.head h12 (Relation.ReflTransGen.single h23)))

/-- C2 (counterexample to the claim as stated): with no backend detected, a
request with action `summarize` is answered `{error:'Unknown action'}`, not
`{error:'NOT_AVAILABLE'}` — the availability gate covers only
`analyze`/`generate`/`refine`, and the listener has no `summarize` branch at
all (the content scripts request summaries as `generate`/`type:'summarize'`).
`ensureLanguageModelReady` is still never attempted. -/
theorem summarize_unknown_action_counterexample :
    (builtinHandle envNoBackend { action := "summarize" }).1.error =
      some "Unknown action" ∧
    (builtinHandle envNoBackend { action := "summarize" }).1.error ≠
      some "NOT_AVAILABLE" ∧
    (builtinHandle envNoBackend { action := "summarize" }).2.ensureCalls = 0 := by
  refine ⟨rfl, ?_, rfl⟩
  decide

/-- C2 (amended): when `detectBuiltInAPI()` returns `null`, each of the
actions `analyze`, `generate`, `refine` is answered
`{error:'NOT_AVAILABLE'}`, and the action `summarize` (which has no handler
branch) is answered `{error:'Unknown action'}`; in all four cases
`ensureLanguageModelReady` is never attempted and no prompt is issued. -/
theorem unavailable_short_circuit (env : BEnv) (req : Request)
    (hdet : env.detected = none) :
    ((req.action = "analyze" ∨ req.action = "generate" ∨ req.action = "refine") →
      builtinHandle env req =
        ({ error := some "NOT_AVAILABLE", message := some notAvailableMsg }, {})) ∧
    (req.action = "summarize" →
      builtinHandle env req = ({ error := some "Unknown action" }, {})) := by
  constructor
  · intro ha
    rcases ha with h | h | h <;> simp [builtinHandle, h, hdet]
  · intro h
    simp [builtinHandle, h, hdet]

/-- Closed witness for `unavailable_short_circuit` at the `generate` action. -/
theorem unavailable_short_circuit_witness :
    envNoBackend.detected = none ∧
    ((("generate" = "analyze" ∨ ("generate" : String) = "generate" ∨
        ("generate" : String) = "refine") →
      builtinHandle envNoBackend { action := "generate" } =
        ({ error := some "NOT_AVAILABLE", message := some notAvailableMsg }, {})) ∧
     (("generate" : String) = "summarize" →
      builtinHandle envNoBackend { action := "generate" } =
        ({ error := some "Unknown action" }, {}))) :=
  ⟨rfl, unavailable_short_circuit envNoBackend { action := "generate" } rfl⟩

/-- C4: both background message listeners are total — for every incoming
request (any action string, any payload) and every behaviour of the external
world (including throwing backends), the handler produces exactly one
response, and that response is exactly one of the two variants: the success
variant (`success: true`, no `error`) or the failure variant (an `error`
string, no `success`); every thrown error is caught and converted to the
failure variant. -/
theorem handlers_always_resolve_one_variant (benv : BEnv) (renv : REnv)
    (today : String) (st : RStorage) (req : Request) :
    (builtinHandle benv req).1.wellFormed ∧
    (remoteHandle renv today st req).1.wellFormed := by
  constructor
  · unfold builtinHandle
    repeat' split
    all_goals simp_all [BResp.wellFormed, builtinPromptM]
  · unfold remoteHandle
    repeat' split
    all_goals simp_all [RResp.wellFormed]

/-- C5: for an `analyze` request whose backend call succeeds but returns text
from which no JSON object can be extracted and parsed, both listeners respond
`{success:true, analysis:{emotion:'Neutral', intent:'Statement',
suggestedAction:'Generate Reply'}}` rather than a failure response. -/
theorem analyze_malformed_defaults (benv : BEnv) (renv : REnv) (today : String)
    (st : RStorage) (req : Request) (k : APIKind) (raw raw2 : String)
    (hact : req.action = "analyze")
    (hdet : benv.detected = some k)
    (hens : benv.ensure = .ok ())
    (hpr : benv.prompt (analyzeInstructionsBuiltin req.text) = .ok (.vstr raw))
    (hnoparse : ∀ cand, jsonMatch raw = some cand → benv.parse cand = none)
    (hback : callBackend renv st (analyzePromptRemote req.text) = .ok raw2)
    (hnoparse2 : ∀ cand, jsonMatch raw2 = some cand → renv.parse cand = none) :
    (builtinHandle benv req).1 =
      { success := some true, analysis := some defaultAnalysis } ∧
    (remoteHandle renv today st req).1 =
      { success := some true, analysis := some defaultAnalysis } := by
  constructor
  · cases hjm : jsonMatch raw with
    | none =>
        simp [builtinHandle, hact, hdet, builtinPromptM, hens, hpr, JsVal.toRaw, hjm]
    | some cand =>
        simp [builtinHandle, hact, hdet, builtinPromptM, hens, hpr, JsVal.toRaw, hjm,
          hnoparse cand hjm]
  · cases hjm : jsonMatch raw2 with
    | none => simp [remoteHandle, hact, hback, hjm]
    | some cand => simp [remoteHandle, hact, hback, hjm, hnoparse2 cand hjm]

/-- Closed witness for `analyze_malformed_defaults`: a prose-only built-in
model and an echoing proxy backend (whose echoed analyze prompt does contain
braces from the JSON-format example, but the parse of the extracted candidate
fails). -/
theorem analyze_malformed_defaults_witness :
    (({ action := "analyze", text := some "hi" } : Request).action = "analyze") ∧
    envProse.detected = some .originTrial ∧
    envProse.ensure = .ok () ∧
    envProse.prompt (analyzeInstructionsBuiltin (some "hi")) =
      .ok (.vstr "The mood seems upbeat overall.") ∧
    callBackend renvEcho stProxyStale (analyzePromptRemote (some "hi")) =
      .ok (analyzePromptRemote (some "hi")) ∧
    ((builtinHandle envProse { action := "analyze", text := some "hi" }).1 =
      { success := some true, analysis := some defaultAnalysis } ∧
     (remoteHandle renvEcho "2026-10-12" stProxyStale
        { action := "analyze", text := some "hi" }).1 =
      { success := some true, analysis := some defaultAnalysis }) :=
  ⟨rfl, rfl, rfl, rfl, rfl,
    analyze_malformed_defaults envProse renvEcho "2026-10-12" stProxyStale
      { action := "analyze", text := some "hi" } .originTrial
      "The mood seems upbeat overall." (analyzePromptRemote (some "hi"))
      rfl rfl rfl rfl (fun _ _ => rfl) rfl (fun _ _ => rfl)⟩

/-- C7: (a) `incrementUsage` rollover — when the stored counter's date is not
today, the counter becomes `{date: today, count: 1}` rather than an increment
of the stale count; (b) in the remote listener, the counter is incremented
exactly once after each successful `analyze`/`generate`/`refine` backend
call, and left untouched when the call fails. -/
theorem usage_rollover_and_increment (env : REnv) (today : String)
    (st : RStorage) (req : Request) (u : Usage)
    (hact : req.action = "analyze" ∨ req.action = "generate" ∨ req.action = "refine") :
    (u.date ≠ some today →
      incrementUsage today (some u) = { date := some today, count := some 1 }) ∧
    ((remoteHandle env today st req).1.success = some true →
      (remoteHandle env today st req).2.dailyUsage =
        some (incrementUsage today st.dailyUsage)) ∧
    ((remoteHandle env today st req).1.error.isSome →
      (remoteHandle env today st req).2.dailyUsage = st.dailyUsage) := by
  refine ⟨?_, ?_, ?_⟩
  · intro hd
    simp [incrementUsage, hd]
  · rcases hact with h | h | h
    · cases hcb : callBackend env st (analyzePromptRemote req.text) with
      | error e => intro hsucc; simp [remoteHandle, h, hcb] at hsucc
      | ok raw => intro _; simp [remoteHandle, h, hcb]
    · cases hcb : callBackend env st (generateInstructionsRemote req) with
      | error e => intro hsucc; simp [remoteHandle, h, hcb] at hsucc
      | ok raw => intro _; simp [remoteHandle, h, hcb]
    · cases hcb : callBackend env st
          (refineInstructionRemote (toneOrFormal req.tone) req.text) with
      | error e => intro hsucc; simp [remoteHandle, h, hcb] at hsucc
      | ok raw => intro _; simp [remoteHandle, h, hcb]
  · rcases hact with h | h | h
    · cases hcb : callBackend env st (analyzePromptRemote req.text) with
      | error e => intro _; simp [remoteHandle, h, hcb]
      | ok raw => intro herr; simp [remoteHandle, h, hcb] at herr
    · cases hcb : callBackend env st (generateInstructionsRemote req) with
      | error e => intro _; simp [remoteHandle, h, hcb]
      | ok raw => intro herr; simp [remoteHandle, h, hcb] at herr
    · cases hcb : callBackend env st
          (refineInstructionRemote (toneOrFormal req.tone) req.text) with
      | error e => intro _; simp [remoteHandle, h, hcb]
      | ok raw => intro herr; simp [remoteHandle, h, hcb] at herr

/-- Closed witness for `usage_rollover_and_increment`: a successful `generate`
call against the echo proxy rolls the stale 2026-10-11 counter over to
`{date: 2026-10-12, count: 1}`. -/
theorem usage_rollover_and_increment_witness :
    (({ action := "generate", text := some "yo" } : Request).action = "analyze" ∨
     ({ action := "generate", text := some "yo" } : Request).action = "generate" ∨
     ({ action := "generate", text := some "yo" } : Request).action = "refine") ∧
    (remoteHandle renvEcho "2026-10-12" stProxyStale
       { action := "generate", text := some "yo" }).1.success = some true ∧
    (remoteHandle renvEcho "2026-10-12" stProxyStale
       { action := "generate", text := some "yo" }).2.dailyUsage =
      some { date := some "2026-10-12", count := some 1 } ∧
    ((some { date := some "2026-10-11", count := some 41 } : Option Usage)
        = stProxyStale.dailyUsage) ∧
    (({ date := some "2026-10-11", count := some 41 } : Usage).date ≠ some "2026-10-12" →
      incrementUsage "2026-10-12" (some { date := some "2026-10-11", count := some 41 }) =
        { date := some "2026-10-12", count := some 1 }) ∧
    ((remoteHandle renvEcho "2026-10-12" stProxyStale
        { action := "generate", text := some "yo" }).1.success = some true →
      (remoteHandle renvEcho "2026-10-12" stProxyStale
        { action := "generate", text := some "yo" }).2.dailyUsage =
        some (incrementUsage "2026-10-12" stProxyStale.dailyUsage)) :=
  ⟨Or.inr (Or.inl rfl), rfl, rfl, rfl,
    (usage_rollover_and_increment renvEcho "2026-10-12" stProxyStale
      { action := "generate", text := some "yo" }
      { date := some "2026-10-11", count := some 41 }
      (Or.inr (Or.inl rfl))).1,
    (usage_rollover_and_increment renvEcho "2026-10-12" stProxyStale
      { action := "generate", text := some "yo" }
      { date := some "2026-10-11", count := some 41 }
      (Or.inr (Or.inl rfl))).2.1⟩

/-- C8 (counterexample to the claim as stated): in the remote listener, the
unrecognized tone `'pirate'` is mapped to the fixed fallback instruction
`'Rewrite with a different tone.'`, which does not mention the requested tone
at all — the instruction sent to the backend (observed here through an
echoing proxy) contains no occurrence of `'pirate'`. -/
theorem refine_tone_counterexample :
    toneInstructionsRemote "pirate" = none ∧
    refineInstructionRemote "pirate" (some "hello") =
      "Rewrite with a different tone.\n\nOriginal:\nhello\n\nRewritten:" ∧
    strContains "pirate" (refineInstructionRemote "pirate" (some "hello")) = false ∧
    (remoteHandle renvEcho "2026-10-12" stProxyStale
       { action := "refine", tone := some "pirate", text := some "hello" }).1.text =
      some (jsTrim (refineInstructionRemote "pirate" (some "hello"))) := by
  refine ⟨rfl, rfl, ?_, rfl⟩
  decide

/-- C8 (amended): each recognized tone (`formal`, `friendly`, `concise`,
`sarcastic`) is mapped to its fixed instruction template by both listeners;
an unrecognized tone yields, in the built-in listener, the generic
`Rewrite to match tone: X.` instruction which does include the requested
tone, while the remote listener falls back to the fixed, tone-independent
instruction `Rewrite with a different tone.`. -/
theorem refine_tone_mapping (tone : String) (text : Option String)
    (h1 : tone ≠ "formal") (h2 : tone ≠ "friendly") (h3 : tone ≠ "concise")
    (h4 : tone ≠ "sarcastic") :
    (toneMapBuiltin "formal" = some "Rewrite to be formal and professional." ∧
     toneMapBuiltin "friendly" = some "Rewrite to be more friendly and casual." ∧
     toneMapBuiltin "concise" = some "Rewrite to be concise and to the point." ∧
     toneMapBuiltin "sarcastic" =
       some "Rewrite to be slightly sarcastic while staying appropriate.") ∧
    (toneInstructionsRemote "formal" =
       some "Rewrite the following message to be more formal and professional." ∧
     toneInstructionsRemote "friendly" =
       some "Rewrite the following message to be more friendly and casual." ∧
     toneInstructionsRemote "concise" =
       some "Rewrite the following message to be more concise and to the point." ∧
     toneInstructionsRemote "sarcastic" =
       some "Rewrite the following message to be slightly sarcastic while remaining appropriate.") ∧
    refineInstructionBuiltin tone text =
      "Rewrite to match tone: " ++ tone ++
        (".\n\nOriginal: " ++ jsInterp text ++ "\n\nRewritten:") ∧
    strContains tone (refineInstructionBuiltin tone text) = true ∧
    refineInstructionRemote tone text =
      "Rewrite with a different tone.\n\nOriginal:\n" ++ jsInterp text ++ "\n\nRewritten:" := by
  have hb : refineInstructionBuiltin tone text =
      "Rewrite to match tone: " ++ tone ++
        (".\n\nOriginal: " ++ jsInterp text ++ "\n\nRewritten:") := by
    simp [refineInstructionBuiltin, toneMapBuiltin, h1, h2, h3, h4, String.append_assoc]
  refine ⟨⟨rfl, rfl, rfl, rfl⟩, ⟨rfl, rfl, rfl, rfl⟩, hb, ?_, ?_⟩
  · unfold strContains
    rw [hb]
    apply decide_eq_true
    exact ⟨"Rewrite to match tone: ".toList,
      (".\n\nOriginal: " ++ jsInterp text ++ "\n\nRewritten:").toList,
      by simp [String.toList]⟩
  · simp [refineInstructionRemote, toneInstructionsRemote, h1, h2, h3, h4,
      String.append_assoc]

/-- Closed witness for `refine_tone_mapping` at the unrecognized tone
`'pirate'`. -/
theorem refine_tone_mapping_witness :
    ("pirate" : String) ≠ "formal" ∧ ("pirate" : String) ≠ "friendly" ∧
    ("pirate" : String) ≠ "concise" ∧ ("pirate" : String) ≠ "sarcastic" ∧
    (refineInstructionBuiltin "pirate" (some "hello") =
      "Rewrite to match tone: " ++ "pirate" ++
        (".\n\nOriginal: " ++ jsInterp (some "hello") ++ "\n\nRewritten:") ∧
     strContains "pirate" (refineInstructionBuiltin "pirate" (some "hello")) = true ∧
     refineInstructionRemote "pirate" (some "hello") =
      "Rewrite with a different tone.\n\nOriginal:\n" ++ jsInterp (some "hello") ++
        "\n\nRewritten:") :=
  ⟨by decide, by decide, by decide, by decide,
    (refine_tone_mapping "pirate" (some "hello") (by decide) (by decide)
        (by decide) (by decide)).2.2.1,
    (refine_tone_mapping "pirate" (some "hello") (by decide) (by decide)
        (by decide) (by decide)).2.2.2.1,
    (refine_tone_mapping "pirate" (some "hello") (by decide) (by decide)
        (by decide) (by decide)).2.2.2.2⟩

/-- C9: a `summarize` request against a backend lacking the dedicated
`Summarizer` capability (global absent, or its availability `'unavailable'`)
still posts `{success:true, text}` through the generic Prompt-API path, and
the response has exactly the shape of the dedicated-summarizer path
(`success = true`, a `text` payload, no `error`), so the caller cannot tell
which path produced it. -/
theorem summarize_fallback_transparent (env env' : BridgeEnv)
    (text text' : String) (out t : String)
    (hlack : env.summarizerPresent = false ∨ env.summarizerAvail = "unavailable")
    (hsess : ensureSession env = .ok ())
    (hprompt : env.promptResult (summaryPromptBridge text) = .ok t)
    (hded : tryDedicatedSummarizer env' = some out) :
    handleSummarize env text = bridgeSuccess t ∧
    handleSummarize env' text' = bridgeSuccess out ∧
    (handleSummarize env text).success = true ∧
    (handleSummarize env text).text = some t ∧
    (handleSummarize env text).error = none := by
  have hnone : tryDedicatedSummarizer env = none := by
    rcases hlack with h | h
    · simp [tryDedicatedSummarizer, h]
    · by_cases hp : env.summarizerPresent <;> simp [tryDedicatedSummarizer, hp, h]
  have hmain : handleSummarize env text = bridgeSuccess t := by
    simp [handleSummarize, hnone, hsess, hprompt]
  refine ⟨hmain, ?_, ?_, ?_, ?_⟩
  · simp [handleSummarize, hded]
  · rw [hmain]; rfl
  · rw [hmain]; rfl
  · rw [hmain]; rfl

/-- Closed witness for `summarize_fallback_transparent`: a backend without the
`Summarizer` global falls back to the Prompt API, matching the shape of a
dedicated-summarizer backend's response. -/
theorem summarize_fallback_transparent_witness :
    (bridgeNoSummarizer.summarizerPresent = false ∨
      bridgeNoSummarizer.summarizerAvail = "unavailable") ∧
    ensureSession bridgeNoSummarizer = .ok () ∧
    bridgeNoSummarizer.promptResult (summaryPromptBridge "long text") =
      .ok "A short summary." ∧
    tryDedicatedSummarizer bridgeWithSummarizer = some "A dedicated summary." ∧
    (handleSummarize bridgeNoSummarizer "long text" =
        bridgeSuccess "A short summary." ∧
      handleSummarize bridgeWithSummarizer "long text" =
        bridgeSuccess "A dedicated summary.") :=
  ⟨Or.inl rfl, rfl, rfl, rfl,
    (summarize_fallback_transparent bridgeNoSummarizer bridgeWithSummarizer
        "long text" "long text" "A dedicated summary." "A short summary."
        (Or.inl rfl) rfl rfl rfl).1,
    (summarize_fallback_transparent bridgeNoSummarizer bridgeWithSummarizer
        "long text" "long text" "A dedicated summary." "A short summary."
        (Or.inl rfl) rfl rfl rfl).2.1⟩

/-- C10 (counterexample to the claim as stated): the stored keys `' '` (a
single space — a non-empty string) and `'a'` produce different `getConfig`
responses, because `getApiConfig` trims the stored key before testing it:
`' '` yields `apiKeySet: false` while `'a'` yields `apiKeySet: true`. -/
theorem apiKey_getConfig_counterexample :
    (" " : String) ≠ "" ∧ ("a" : String) ≠ "" ∧
    (remoteHandle renvUnused "2026-10-12" stKeyBlank { action := "getConfig" }).1.apiKeySet =
      some false ∧
    (remoteHandle renvUnused "2026-10-12" stKeyA { action := "getConfig" }).1.apiKeySet =
      some true ∧
    (remoteHandle renvUnused "2026-10-12" stKeyBlank { action := "getConfig" }).1 ≠
    (remoteHandle renvUnused "2026-10-12" stKeyA { action := "getConfig" }).1 := by
  refine ⟨by decide, by decide, rfl, rfl, ?_⟩
  intro h
  exact absurd (congrArg RResp.apiKeySet h) (by decide)

/-- C10 (amended): the message interface never discloses the stored API key:
the response to `saveApiKey` is the constant `{success:true}` containing no
key material, and the `getConfig` response depends on the stored key only
through the boolean `apiKeySet = (trimmed key ≠ '')` — for any two stored
keys that are non-empty after trimming, the `getConfig` responses are
identical. -/
theorem apiKey_not_disclosed (env : REnv) (today : String) (st : RStorage)
    (k1 k2 : String) (req : Request)
    (h1 : jsTrim k1 ≠ "") (h2 : jsTrim k2 ≠ "") :
    (remoteHandle env today st { req with action := "saveApiKey" }).1 =
      { success := some true } ∧
    (remoteHandle env today { st with geminiApiKey := some k1 }
        { action := "getConfig" }).1 =
    (remoteHandle env today { st with geminiApiKey := some k2 }
        { action := "getConfig" }).1 := by
  constructor
  · simp [remoteHandle]
  · simp [remoteHandle, getApiConfig, jsTruthy, h1, h2]

/-- Closed witness for `apiKey_not_disclosed` with two ordinary keys. -/
theorem apiKey_not_disclosed_witness :
    jsTrim "alpha-key" ≠ "" ∧ jsTrim "beta-key" ≠ "" ∧
    ((remoteHandle renvUnused "2026-10-12" stKeyA
        { action := "saveApiKey", apiKey := some "alpha-key" }).1 =
      { success := some true } ∧
     (remoteHandle renvUnused "2026-10-12"
        { stKeyA with geminiApiKey := some "alpha-key" }
        { action := "getConfig" }).1 =
     (remoteHandle renvUnused "2026-10-12"
        { stKeyA with geminiApiKey := some "beta-key" }
        { action := "getConfig" }).1) :=
  ⟨by decide, by decide,
    (apiKey_not_disclosed renvUnused "2026-10-12" stKeyA "alpha-key" "beta-key"
        { action := "saveApiKey", apiKey := some "alpha-key" }
        (by decide) (by decide)).1,
    (apiKey_not_disclosed renvUnused "2026-10-12" stKeyA "alpha-key" "beta-key"
        { action := "saveApiKey", apiKey := some "alpha-key" }
        (by decide) (by decide)).2⟩

end SmartCompose
